import Mathlib

/-!
Verification development for the chat-relay backend in `server/app.py`.

The module is shallowly embedded: Python dicts become Lean structures,
floats and JSON numbers become `ℚ`, exceptions become `Except PyErr`,
and the two Flask handlers become pure functions from an explicit
environment (API key, wall clock, upstream weather response, generation
outcomes) and the single-slot weather-cache state to an outcome, the
updated cache, and the number of generation calls made.

A central fact of the source is that the module never imports `time`
while `get_galway_time_weather` begins with `now = time.time()`
(line 72); name resolution of `time` therefore fails, which the
embedding models by consulting the list of names actually bound at
module level.
-/

/-- Python `str.strip()` (default whitespace), embedded over the
character list of the string. -/
def pyStrip (s : String) : String :=
  ⟨((s.data.dropWhile Char.isWhitespace).reverse.dropWhile Char.isWhitespace).reverse⟩

/-- Helper for `pyIn`: Boolean list-prefix test on characters. -/
def listPre : List Char → List Char → Bool
  | [], _ => true
  | _ :: _, [] => false
  | a :: as, b :: bs => a == b && listPre as bs

/-- Helper for `pyIn`: Boolean list-infix (contiguous substring) test. -/
def listInf (sub : List Char) : List Char → Bool
  | [] => listPre sub []
  | b :: bs => listPre sub (b :: bs) || listInf sub bs

/-- Python `sub in s` on strings: contiguous substring containment. -/
def pyIn (sub s : String) : Bool := listInf sub.data s.data

/-- Python `str.lower()` (the messages of interest are ASCII). -/
def pyLower (s : String) : String := ⟨s.data.map Char.toLower⟩

/-- Python exceptions that the embedded module can raise. -/
inductive PyErr
  | nameError
  | runtimeError (msg : String)
  | genError (msg : String)
deriving DecidableEq, Repr

/-- The names bound at the top level of `server/app.py`: the imports of
lines 1-11 and the module-level definitions.  `time` is NOT among them,
although line 72 evaluates `time.time()`. -/
def moduleBoundNames : List String :=
  ["annotations", "os", "datetime", "Any", "Dict", "Generator", "Optional",
   "pytz", "requests", "Flask", "Response", "jsonify", "request",
   "send_from_directory", "CORS", "genai", "app", "GEMINI_MODEL",
   "GALWAY_LAT", "GALWAY_LON", "GALWAY_TZ", "_client", "get_gemini_client",
   "_weather_cache", "get_galway_time_weather", "maybe_handle_time_weather",
   "index", "static_files", "health", "chat", "chat_stream"]

/-- The `current` object of the Open-Meteo JSON body (fields requested
at line 83).  Each field is optional because the code reads them with
`cur.get(...)`, which yields `None` when absent. -/
structure UpstreamCurrent where
  temperature_2m : Option ℚ
  precipitation : Option ℚ
  wind_speed_10m : Option ℚ
  time : Option String
deriving DecidableEq, Repr

/-- The `weather` dict built at lines 93-100: either the error marker
`{"error": "weather_fetch_failed"}` or the passthrough of the upstream
fields under the keys `temperature_c`, `precip_mm`, `wind_kmh`,
`obs_time` (in that keyword order). -/
inductive WeatherDict
  | err
  | ok (temperature_c : Option ℚ) (precip_mm : Option ℚ)
      (wind_kmh : Option ℚ) (obs_time : Option String)
deriving DecidableEq, Repr

/-- The `result` dict of lines 102-107. -/
structure GalwayInfo where
  city : String
  timezone : String
  local_time : String
  weather : WeatherDict
deriving DecidableEq, Repr

/-- The module-level `_weather_cache = {"ts": 0.0, "value": None}`
(line 64). -/
structure WeatherCache where
  ts : ℚ
  value : Option GalwayInfo
deriving DecidableEq, Repr

/-- Initial cache state, as at line 64. -/
def initCache : WeatherCache := { ts := 0, value := none }

/-- Per-request environment: configuration and the behaviour of the
external collaborators (wall clock, formatted local time, the weather
upstream, the Gemini client).  `fetch = none` models any failure of the
`requests.get` block (exception, non-2xx, bad JSON); `gen` is the
single-shot generation outcome (`.error m` = the call raises, `.ok t` =
`response.text`, possibly `None`); `genChunks` are the `chunk.text`
values yielded by `generate_content_stream` before it either closes
(`genStreamErr = none`) or raises (`genStreamErr = some m`). -/
structure Env where
  apiKey : Option String
  now : ℚ
  localTime : String
  fetch : Option UpstreamCurrent
  gen : Except String (Option String)
  genChunks : List (Option String)
  genStreamErr : Option String

/-- The message of the `RuntimeError` raised at line 55. -/
def missingKeyMsg : String := "Missing GEMINI_API_KEY environment variable."

/-- `get_gemini_client` (lines 43-58): raises `RuntimeError` when the
`GEMINI_API_KEY` environment variable is absent or empty (Python
truthiness of `if not api_key`), otherwise yields a client.  The
memoisation in `_client` does not affect any per-request outcome and is
not modelled. -/
def get_gemini_client : Option String → Except PyErr Unit
  | none => .error (.runtimeError missingKeyMsg)
  | some k => if k = "" then .error (.runtimeError missingKeyMsg) else .ok ()

/-- Lines 76-111 of `get_galway_time_weather`: the part of the body
below `now = time.time()`, reached only when the name `time` resolves.
It builds the weather dict (error marker on a failed fetch, raw
passthrough of the upstream fields on success — no rounding), assembles
`result`, and writes `ts` and `value` into the cache UNCONDITIONALLY
(lines 109-110), i.e. also when the fetch failed. -/
def fetchAndCache (now : ℚ) (localTime : String) (_cache : WeatherCache)
    (fetch : Option UpstreamCurrent) : GalwayInfo × WeatherCache :=
  let weather : WeatherDict :=
    match fetch with
    | none => .err
    | some cur => .ok cur.temperature_2m cur.precipitation cur.wind_speed_10m cur.time
  let result : GalwayInfo :=
    { city := "Galway", timezone := "Europe/Dublin",
      local_time := localTime, weather := weather }
  (result, { ts := now, value := some result })

/-- `get_galway_time_weather` (lines 67-111).  The first statement of
the body, `now = time.time()` (line 72), resolves the name `time` in
the module globals; since `time` is not bound there, every call raises
`NameError` before the cache is even consulted.  The remainder (the
freshness check of lines 73-74 and the fetch path `fetchAndCache`) is
the semantics the body would have were the name bound; `now` is passed
in as the value `time.time()` would return. -/
def get_galway_time_weather (now : ℚ) (localTime : String)
    (cache : WeatherCache) (fetch : Option UpstreamCurrent) :
    Except PyErr (GalwayInfo × WeatherCache) :=
  if "time" ∈ moduleBoundNames then
    match cache.value with
    | some v =>
      if now - cache.ts < 60 then .ok (v, cache)
      else .ok (fetchAndCache now localTime cache fetch)
    | none => .ok (fetchAndCache now localTime cache fetch)
  else .error .nameError

/-- Rendering of a JSON number inside an f-string.  Python prints
floats in decimal; the exact decimal rendering is abstracted (no claim
depends on it): integral values print as "n.0", other rationals as
"num/den", `None` as "None". -/
def optNumStr : Option ℚ → String
  | none => "None"
  | some q =>
    if q.den = 1 then toString q.num ++ ".0"
    else toString q.num ++ "/" ++ toString q.den

/-- The trigger condition of line 119:
`"galway" in t and ("weather" in t or "time" in t)`. -/
def triggerGalway (t : String) : Bool :=
  pyIn "galway" t && (pyIn "weather" t || pyIn "time" t)

/-- `maybe_handle_time_weather` (lines 114-133): if the lower-cased
message matches the trigger, fetch the Galway info and answer DIRECTLY
(no Gemini call) — with a degraded sentence when the weather dict holds
the error marker; otherwise return `None`.  The call at line 120 is not
guarded, so a `NameError` from `get_galway_time_weather` propagates. -/
def maybe_handle_time_weather (env : Env) (userText : String)
    (cache : WeatherCache) : Except PyErr (Option String × WeatherCache) :=
  let t := pyLower userText
  if triggerGalway t then
    match get_galway_time_weather env.now env.localTime cache env.fetch with
    | .error e => .error e
    | .ok (info, cache') =>
      match info.weather with
      | .err =>
        .ok (some ("The time in Galway is " ++ info.local_time ++
          ". I couldn’t fetch live weather right now."), cache')
      | .ok tc pm wk _ =>
        .ok (some ("The time in Galway is " ++ info.local_time ++
          ". Current weather: " ++ optNumStr tc ++ "°C, wind " ++
          optNumStr wk ++ " km/h, precipitation " ++ optNumStr pm ++
          " mm."), cache')
  else .ok (none, cache)

/-- Outcome of the single-shot endpoint: a JSON body (association list
of key/value pairs) with an HTTP status, or an exception escaping the
handler (Flask then renders its default 500 error page). -/
inductive HttpOutcome
  | json (body : List (String × String)) (status : Nat)
  | raised (e : PyErr)
deriving DecidableEq, Repr

/-- Outcome of the streaming endpoint: the list of SSE events emitted,
the HTTP status of the response, and — when the generator raised
mid-stream — the exception message it aborted with (`abortedWith =
none` means the stream ran to completion); or an exception raised
before the `Response` object was even constructed. -/
inductive StreamOutcome
  | events (evs : List String) (status : Nat) (abortedWith : Option String)
  | raised (e : PyErr)
deriving DecidableEq, Repr

/-- The terminal SSE marker emitted at lines 194 / 204 / 216. -/
def doneEvent : String := "data: [DONE]\n\n"

/-- `POST /api/chat` (lines 157-178).  `payload` is the `message` field
of the JSON body (`none` when absent or the body is not JSON).  Returns
the outcome, the cache state after the request, and the number of
`generate_content` calls made.  Note: the empty-message rejection uses
body key "reply" (line 162), the credential failure is caught and also
answered under key "reply" with status 500 (line 172), and the
`generate_content` call of line 174 is NOT inside any try/except, so a
generation failure escapes the handler. -/
def chat (env : Env) (cache : WeatherCache) (payload : Option String) :
    HttpOutcome × WeatherCache × Nat :=
  let message := pyStrip (payload.getD "")
  if message = "" then
    (.json [("reply", "Send a message, genius.")] 400, cache, 0)
  else
    match maybe_handle_time_weather env message cache with
    | .error e => (.raised e, cache, 0)
    | .ok (some direct, cache') => (.json [("reply", direct)] 200, cache', 0)
    | .ok (none, cache') =>
      match get_gemini_client env.apiKey with
      | .error (.runtimeError m) => (.json [("reply", m)] 500, cache', 0)
      | .error e => (.raised e, cache', 0)
      | .ok _ =>
        match env.gen with
        | .error m => (.raised (.genError m), cache', 1)
        | .ok t => (.json [("reply", t.getD "")] 200, cache', 1)

/-- `POST /api/chat/stream` (lines 181-218).  An empty message yields a
single `Missing message` event — with the default HTTP status 200 and
NO done marker (line 186).  The fast-path call of line 189 happens
before any `Response` is built, so its exceptions escape the handler.
In the generator: a credential failure is streamed as an error event
followed by the done marker; otherwise the `chunk.text` values are
forwarded in order, skipping falsy (absent or empty) ones, and the done
marker is emitted only if the upstream stream closes without raising. -/
def chat_stream (env : Env) (cache : WeatherCache) (payload : Option String) :
    StreamOutcome × WeatherCache × Nat :=
  let message := pyStrip (payload.getD "")
  if message = "" then
    (.events ["data: Missing message\n\n"] 200 none, cache, 0)
  else
    match maybe_handle_time_weather env message cache with
    | .error e => (.raised e, cache, 0)
    | .ok (some direct, cache') =>
      (.events ["data: " ++ direct ++ "\n\n", doneEvent] 200 none, cache', 0)
    | .ok (none, cache') =>
      match get_gemini_client env.apiKey with
      | .error (.runtimeError m) =>
        (.events ["data: " ++ m ++ "\n\n", doneEvent] 200 none, cache', 0)
      | .error e => (.raised e, cache', 0)
      | .ok _ =>
        let frags := (env.genChunks.filterMap id).filter (fun s => !s.isEmpty)
        let evs := frags.map (fun f => "data: " ++ f ++ "\n\n")
        match env.genStreamErr with
        | some m => (.events evs 200 (some m), cache', 1)
        | none => (.events (evs ++ [doneEvent]) 200 none, cache', 1)

/-- A neutral sample environment for concrete evaluations: credential
present, fetch failing, generation succeeding. -/
def sampleEnv : Env :=
  { apiKey := some "k", now := 0,
    localTime := "Sunday, 05 October 2025 12:00 (GMT)",
    fetch := none, gen := .ok (some "hi"), genChunks := [],
    genStreamErr := none }

/-- `sampleEnv` with the credential absent. -/
def sampleEnvNoKey : Env := { sampleEnv with apiKey := none }

/-- `sampleEnv` with both generation calls failing. -/
def genFailEnv : Env :=
  { sampleEnv with
    gen := Except.error "upstream boom"
    genStreamErr := some "upstream boom" }

/-- `sampleEnv` with a concrete streaming chunk sequence containing
empty and absent fragments. -/
def streamEnv : Env :=
  { sampleEnv with genChunks := [some "Hel", some "", none, some "lo"] }

/-- A sample successful `result` dict, for cache counterexamples. -/
def freshInfo : GalwayInfo :=
  { city := "Galway", timezone := "Europe/Dublin",
    local_time := "Sunday, 05 October 2025 11:59 (GMT)",
    weather := .ok (some 12) (some 0) (some 20) (some "2025-10-05T11:59") }

/-- The mocked upstream response of the spec:
temperature_2m 12.34, wind_speed_10m 5.0, precipitation 0.0. -/
def mockedCurrent : UpstreamCurrent :=
  { temperature_2m := some (1234/100), precipitation := some 0,
    wind_speed_10m := some 5, time := some "2025-10-05T12:00" }

/-! ### Helper lemmas (shared across claims) -/

/-- The name `time` is not bound at module level, so every call of
`get_galway_time_weather` raises `NameError` at line 72, whatever the
clock, cache and upstream behaviour. -/
theorem get_galway_nameError (now : ℚ) (lt : String) (c : WeatherCache)
    (f : Option UpstreamCurrent) :
    get_galway_time_weather now lt c f = .error .nameError := by
  unfold get_galway_time_weather
  rw [if_neg (by decide)]

/-- Containment of "galway" and of "weather" or "time" makes the
line-119 trigger fire. -/
theorem trigger_of_parts {t : String} (hg : pyIn "galway" t = true)
    (hw : pyIn "weather" t = true ∨ pyIn "time" t = true) :
    triggerGalway t = true := by
  unfold triggerGalway
  rcases hw with h | h <;> simp [hg, h]

/-- A message matching the trigger is non-empty. -/
theorem trigger_ne_empty {m : String} (h : triggerGalway (pyLower m) = true) :
    m ≠ "" := by
  intro hm
  subst hm
  exact absurd h (by decide)

/-- On a triggering message the fast path calls
`get_galway_time_weather`, so the `NameError` propagates. -/
theorem maybe_handle_of_trigger (env : Env) (m : String) (c : WeatherCache)
    (h : triggerGalway (pyLower m) = true) :
    maybe_handle_time_weather env m c = .error .nameError := by
  simp [maybe_handle_time_weather, h, get_galway_nameError]

/-- On a non-triggering message the fast path returns `None` and leaves
the cache alone. -/
theorem maybe_handle_no_trigger (env : Env) (m : String) (c : WeatherCache)
    (h : triggerGalway (pyLower m) = false) :
    maybe_handle_time_weather env m c = .ok (none, c) := by
  simp [maybe_handle_time_weather, h]

/-- A triggering message makes `POST /api/chat` raise `NameError`
without calling generation. -/
theorem chat_trigger_raises (env : Env) (c : WeatherCache)
    (payload : Option String)
    (h : triggerGalway (pyLower (pyStrip (payload.getD ""))) = true) :
    chat env c payload = (.raised .nameError, c, 0) := by
  have hm := trigger_ne_empty h
  simp [chat, hm, maybe_handle_of_trigger env _ c h]

/-- A triggering message makes `POST /api/chat/stream` raise
`NameError` without calling generation. -/
theorem chat_stream_trigger_raises (env : Env) (c : WeatherCache)
    (payload : Option String)
    (h : triggerGalway (pyLower (pyStrip (payload.getD ""))) = true) :
    chat_stream env c payload = (.raised .nameError, c, 0) := by
  have hm := trigger_ne_empty h
  simp [chat_stream, hm, maybe_handle_of_trigger env _ c h]

/-- `get_gemini_client` either yields a client or raises the missing
credential `RuntimeError`; no other outcome exists. -/
theorem gemini_cases (k : Option String) :
    get_gemini_client k = .ok () ∨
    get_gemini_client k = .error (.runtimeError missingKeyMsg) := by
  cases k with
  | none => exact Or.inr rfl
  | some s =>
    by_cases hs : s = ""
    · exact Or.inr (by simp [get_gemini_client, hs])
    · exact Or.inl (by simp [get_gemini_client, hs])

/-- A list with the done marker appended ends in the done marker. -/
theorem lastAppendDone (l : List String) :
    (l ++ [doneEvent]).getLast? = some doneEvent := by
  simp

/-! ### C1 -/

/-- C1 counterexample: for the concrete message "what is the weather in
galway" the single-shot request DOES fail as a whole — the handler
raises `NameError` (line 72 evaluates `time.time()` with `time`
unbound) — and generation is never invoked (call count 0); no LIVE_DATA
block is ever built, contradicting the claim that the weather error is
never propagated upward and that generation is still invoked. -/
theorem c1_counterexample :
    chat sampleEnv initCache (some "what is the weather in galway") =
      (.raised .nameError, initCache, 0) := rfl

/-- C1 amended: for every message whose lower-cased stripped text
contains "weather" and "galway", both chat endpoints fail as a whole
with an unhandled `NameError` raised before any weather fetch, and
generation is never invoked (the fast path answers directly, without a
LIVE_DATA block, and it is unreachable past line 72). -/
theorem c1_amended (env : Env) (c : WeatherCache) (payload : Option String)
    (hw : pyIn "weather" (pyLower (pyStrip (payload.getD ""))) = true)
    (hg : pyIn "galway" (pyLower (pyStrip (payload.getD ""))) = true) :
    chat env c payload = (.raised .nameError, c, 0) ∧
    chat_stream env c payload = (.raised .nameError, c, 0) := by
  have ht := trigger_of_parts hg (Or.inl hw)
  exact ⟨chat_trigger_raises env c payload ht,
    chat_stream_trigger_raises env c payload ht⟩

/-- C1 witness: the amended statement at the concrete message
"galway weather please". -/
theorem c1_amended_witness :
    (pyIn "weather"
        (pyLower (pyStrip ((some "galway weather please" : Option String).getD ""))) = true ∧
     pyIn "galway"
        (pyLower (pyStrip ((some "galway weather please" : Option String).getD ""))) = true) ∧
    chat sampleEnv initCache (some "galway weather please") =
      (.raised .nameError, initCache, 0) ∧
    chat_stream sampleEnv initCache (some "galway weather please") =
      (.raised .nameError, initCache, 0) :=
  ⟨⟨by decide, by decide⟩,
   c1_amended sampleEnv initCache (some "galway weather please") (by decide) (by decide)⟩

/-! ### C2 -/

/-- C2: every call of `get_galway_time_weather` raises `NameError`
(the module never imports `time` yet line 72 evaluates `time.time()`),
and consequently every request whose lower-cased message contains
"galway" together with "weather" or "time" hits an unhandled exception
in both chat endpoints instead of producing a reply. -/
theorem c2_nameError_everywhere (env : Env) (c : WeatherCache)
    (payload : Option String)
    (hg : pyIn "galway" (pyLower (pyStrip (payload.getD ""))) = true)
    (hw : pyIn "weather" (pyLower (pyStrip (payload.getD ""))) = true ∨
          pyIn "time" (pyLower (pyStrip (payload.getD ""))) = true) :
    (∀ (now : ℚ) (lt : String) (c' : WeatherCache) (f : Option UpstreamCurrent),
        get_galway_time_weather now lt c' f = .error .nameError) ∧
    chat env c payload = (.raised .nameError, c, 0) ∧
    chat_stream env c payload = (.raised .nameError, c, 0) := by
  have ht := trigger_of_parts hg hw
  exact ⟨get_galway_nameError, chat_trigger_raises env c payload ht,
    chat_stream_trigger_raises env c payload ht⟩

/-- C2 witness: the statement at the concrete message
"weather in galway". -/
theorem c2_nameError_everywhere_witness :
    (pyIn "galway"
        (pyLower (pyStrip ((some "weather in galway" : Option String).getD ""))) = true ∧
     pyIn "weather"
        (pyLower (pyStrip ((some "weather in galway" : Option String).getD ""))) = true) ∧
    chat sampleEnv initCache (some "weather in galway") =
      (.raised .nameError, initCache, 0) ∧
    chat_stream sampleEnv initCache (some "weather in galway") =
      (.raised .nameError, initCache, 0) :=
  ⟨⟨by decide, by decide⟩,
   (c2_nameError_everywhere sampleEnv initCache (some "weather in galway")
     (by decide) (Or.inl (by decide))).2⟩

/-! ### C4 -/

/-- C4 counterexample: a failed fetch DOES overwrite the cache entry.
Starting from a cache holding a successful snapshot (`freshInfo`,
timestamp 0) and fetching at time 100 with the upstream failing, lines
109-110 replace the entry with the error-marked result and timestamp
100, clobbering the previous value — contradicting
"replace-only-on-success". -/
theorem c4_counterexample :
    (fetchAndCache 100 "Monday, 06 October 2025 12:00 (GMT)"
        (WeatherCache.mk 0 (some freshInfo)) none).2 =
      WeatherCache.mk 100 (some (GalwayInfo.mk "Galway" "Europe/Dublin"
        "Monday, 06 October 2025 12:00 (GMT)" .err)) ∧
    WeatherCache.mk 100 (some (GalwayInfo.mk "Galway" "Europe/Dublin"
        "Monday, 06 October 2025 12:00 (GMT)" .err)) ≠
      WeatherCache.mk 0 (some freshInfo) :=
  ⟨rfl, by decide⟩

/-- C4 amended: the fetch path replaces the cache on EVERY attempt:
a failed fetch unconditionally overwrites both timestamp and value with
the error-marked result (which the freshness check of lines 73-74 would
then serve for the next 60 seconds).  Moreover, in the module as
written this path is unreachable, since every call of
`get_galway_time_weather` raises `NameError` at line 72. -/
theorem c4_amended (now : ℚ) (lt : String) (c : WeatherCache) :
    fetchAndCache now lt c none =
      (GalwayInfo.mk "Galway" "Europe/Dublin" lt .err,
       WeatherCache.mk now (some (GalwayInfo.mk "Galway" "Europe/Dublin" lt .err))) := rfl

/-! ### C5 -/

/-- C5 counterexample: the streaming endpoint does NOT apply the same
validation as the single-shot endpoint: for a whitespace-only message
it responds with HTTP status 200 (a single in-band "Missing message"
event), not 400. -/
theorem c5_counterexample :
    (chat_stream sampleEnv initCache (some "   ")).1 =
      .events ["data: Missing message\n\n"] 200 none ∧ (200 : Nat) ≠ 400 :=
  ⟨rfl, by decide⟩

/-- C5 amended: for an empty or whitespace-only message, the
single-shot endpoint rejects with HTTP 400 and no generation call,
while the streaming endpoint emits a single in-band "Missing message"
event with HTTP 200 (and no done marker) and also makes no generation
call. -/
theorem c5_amended (env : Env) (c : WeatherCache) (payload : Option String)
    (h : pyStrip (payload.getD "") = "") :
    chat env c payload =
      (.json [("reply", "Send a message, genius.")] 400, c, 0) ∧
    chat_stream env c payload =
      (.events ["data: Missing message\n\n"] 200 none, c, 0) := by
  constructor
  · simp [chat, h]
  · simp [chat_stream, h]

/-- C5 witness: the amended statement with the `message` field absent
from the request body. -/
theorem c5_amended_witness :
    pyStrip ((none : Option String).getD "") = "" ∧
    chat sampleEnv initCache none =
      (.json [("reply", "Send a message, genius.")] 400, initCache, 0) ∧
    chat_stream sampleEnv initCache none =
      (.events ["data: Missing message\n\n"] 200 none, initCache, 0) :=
  ⟨rfl, (c5_amended sampleEnv initCache none rfl).1,
   (c5_amended sampleEnv initCache none rfl).2⟩

/-! ### C6 -/

/-- C6 counterexample: with the credential missing the endpoint answers
with status 500 but under the body key "reply" (line 172), not "error";
and when `generate_content` fails the exception is NOT caught (lines
174-177 sit outside any try/except) and escapes to the default error
page.  Both concrete runs contradict the claim. -/
theorem c6_counterexample :
    chat sampleEnvNoKey initCache (some "hello") =
      (.json [("reply", missingKeyMsg)] 500, initCache, 0) ∧
    chat genFailEnv initCache (some "hello") =
      (.raised (.genError "upstream boom"), initCache, 1) :=
  ⟨rfl, rfl⟩

/-- C6 amended: on a missing credential the single-shot endpoint
returns the message as `{"reply": string}` (not `{"error": string}`)
with HTTP 500; a generation failure is not caught and the exception
escapes the handler to Flask's default error page. -/
theorem c6_amended (env : Env) (c : WeatherCache) (payload : Option String)
    (hm : pyStrip (payload.getD "") ≠ "")
    (ht : triggerGalway (pyLower (pyStrip (payload.getD ""))) = false) :
    (get_gemini_client env.apiKey = .error (.runtimeError missingKeyMsg) →
      chat env c payload = (.json [("reply", missingKeyMsg)] 500, c, 0)) ∧
    (∀ g, get_gemini_client env.apiKey = .ok () → env.gen = .error g →
      chat env c payload = (.raised (.genError g), c, 1)) := by
  have hmh := maybe_handle_no_trigger env (pyStrip (payload.getD "")) c ht
  constructor
  · intro hcl
    simp [chat, hm, hmh, hcl]
  · intro g hcl hg
    simp [chat, hm, hmh, hcl, hg]

/-- C6 witness: the amended statement at the concrete message
"hi there" with the credential absent. -/
theorem c6_amended_witness :
    (pyStrip ((some "hi there" : Option String).getD "") ≠ "" ∧
     triggerGalway (pyLower (pyStrip ((some "hi there" : Option String).getD ""))) = false ∧
     get_gemini_client sampleEnvNoKey.apiKey = .error (.runtimeError missingKeyMsg)) ∧
    chat sampleEnvNoKey initCache (some "hi there") =
      (.json [("reply", missingKeyMsg)] 500, initCache, 0) :=
  ⟨⟨by decide, by decide, rfl⟩,
   (c6_amended sampleEnvNoKey initCache (some "hi there") (by decide) (by decide)).1 rfl⟩

/-! ### C7 -/

/-- C7 counterexample: the code applies NO rounding.  For the mocked
upstream response (temperature_2m 12.34, wind_speed_10m 5.0,
precipitation 0.0) the weather dict carries the raw value 12.34 under
`temperature_c` — and 12.34 is not the claimed 12.3. -/
theorem c7_counterexample :
    (fetchAndCache 0 "Sunday, 05 October 2025 12:00 (GMT)" initCache
        (some mockedCurrent)).1.weather =
      .ok (some (1234/100)) (some 0) (some 5) (some "2025-10-05T12:00") ∧
    (1234/100 : ℚ) ≠ 123/10 :=
  ⟨rfl, by norm_num⟩

/-- C7 amended: on a successful fetch every value is passed through
unrounded — `temperature_c` is the raw `temperature_2m`, `wind_kmh` the
raw `wind_speed_10m`, and the precipitation is stored under the key
`precip_mm` (not `precipitation_mm`) as the raw `precipitation`; in
particular the mocked response yields 12.34, 5.0 and 0.0 verbatim. -/
theorem c7_amended (now : ℚ) (lt : String) (c : WeatherCache)
    (cur : UpstreamCurrent) :
    (fetchAndCache now lt c (some cur)).1.weather =
      .ok cur.temperature_2m cur.precipitation cur.wind_speed_10m cur.time ∧
    (fetchAndCache 0 "Sunday, 05 October 2025 12:00 (GMT)" initCache
        (some mockedCurrent)).1.weather =
      .ok (some (1234/100)) (some 0) (some 5) (some "2025-10-05T12:00") :=
  ⟨rfl, rfl⟩

/-! ### C8 -/

/-- C8 counterexample: the concrete message "what time is it in
ireland" contains "time" and "ireland" but not "galway", and the live
data fast path does NOT fire — `maybe_handle_time_weather` returns
`None` and leaves the cache alone, contradicting the claim that
"ireland" is an accepted location keyword. -/
theorem c8_counterexample :
    pyIn "time" (pyLower "what time is it in ireland") = true ∧
    pyIn "ireland" (pyLower "what time is it in ireland") = true ∧
    pyIn "galway" (pyLower "what time is it in ireland") = false ∧
    maybe_handle_time_weather sampleEnv "what time is it in ireland" initCache =
      .ok (none, initCache) :=
  ⟨by decide, by decide, by decide, rfl⟩

/-- C8 amended: the live-data path fires exactly when the lower-cased
message contains "galway" together with "weather" or "time" (line 119);
"ireland" is not a trigger keyword at all, so a message containing
"time" and "ireland" but not "galway" is handed to plain generation
with no time fact. -/
theorem c8_amended (env : Env) (m : String) (c : WeatherCache) :
    maybe_handle_time_weather env m c = .ok (none, c) ↔
      triggerGalway (pyLower m) = false := by
  cases h : triggerGalway (pyLower m) with
  | true =>
    rw [maybe_handle_of_trigger env m c h]
    simp
  | false =>
    rw [maybe_handle_no_trigger env m c h]
    simp

/-! ### C9 -/

/-- C9: the caching claim matches the code's own intent (the docstring
at lines 68-71 promises "Cached for 60s to reduce calls", and lines
73-74 / 109-111 implement check-freshness before fetching), but the
code is broken by a slip: `time` is never imported, so line 72 raises
`NameError` on every call — even with a 40-seconds-fresh cached value
in place (first run) and even with a healthy upstream (second run); no
call ever returns a snapshot, cached or fresh. -/
theorem c9_cache_dead_code :
    get_galway_time_weather 50 "Monday, 06 October 2025 12:00 (GMT)"
      (WeatherCache.mk 10 (some freshInfo)) none = .error .nameError ∧
    get_galway_time_weather 50 "Monday, 06 October 2025 12:00 (GMT)"
      initCache (some mockedCurrent) = .error .nameError :=
  ⟨rfl, rfl⟩

/-! ### C3 -/

/-- C3 counterexample: for a whitespace-only message the streaming
endpoint emits the single event "data: Missing message" and nothing
else (line 186) — the emitted stream does NOT terminate with the done
marker, contradicting the claim for the empty/whitespace case. -/
theorem c3_counterexample :
    (chat_stream sampleEnv initCache (some " ")).1 =
      .events ["data: Missing message\n\n"] 200 none ∧
    (["data: Missing message\n\n"].getLast? = some doneEvent → False) :=
  ⟨rfl, by decide⟩

/-- C3 amended: the stream ends with the done marker on the two paths
that can complete — credential failure (error event then done) and a
generation stream that closes without raising — for any non-empty,
non-triggering message.  It does NOT end with the marker when the
message is empty/whitespace-only (single "Missing message" event), when
generation raises mid-stream (the generator aborts), or on a
galway-time/weather message (NameError before any event). -/
theorem c3_amended (env : Env) (c : WeatherCache) (payload : Option String)
    (hm : pyStrip (payload.getD "") ≠ "")
    (ht : triggerGalway (pyLower (pyStrip (payload.getD ""))) = false)
    (hok : get_gemini_client env.apiKey = .error (.runtimeError missingKeyMsg) ∨
      env.genStreamErr = none) :
    ∃ evs, (chat_stream env c payload).1 = .events evs 200 none ∧
      evs.getLast? = some doneEvent := by
  have hmh := maybe_handle_no_trigger env (pyStrip (payload.getD "")) c ht
  rcases gemini_cases env.apiKey with hcl | hcl
  · have hse : env.genStreamErr = none := by
      rcases hok with he | h
      · rw [hcl] at he
        cases he
      · exact h
    refine ⟨((env.genChunks.filterMap id).filter (fun s => !s.isEmpty)).map
        (fun f => "data: " ++ f ++ "\n\n") ++ [doneEvent], ?_, lastAppendDone _⟩
    simp [chat_stream, hm, hmh, hcl, hse]
  · refine ⟨["data: " ++ missingKeyMsg ++ "\n\n", doneEvent], ?_, rfl⟩
    simp [chat_stream, hm, hmh, hcl]

/-- C3 witness: the amended statement at the concrete message "hello"
with the credential absent (immediate credential failure). -/
theorem c3_amended_witness :
    (pyStrip ((some "hello" : Option String).getD "") ≠ "" ∧
     triggerGalway (pyLower (pyStrip ((some "hello" : Option String).getD ""))) = false ∧
     (get_gemini_client sampleEnvNoKey.apiKey = .error (.runtimeError missingKeyMsg) ∨
       sampleEnvNoKey.genStreamErr = none)) ∧
    ∃ evs, (chat_stream sampleEnvNoKey initCache (some "hello")).1 =
        .events evs 200 none ∧
      evs.getLast? = some doneEvent :=
  ⟨⟨by decide, by decide, Or.inl rfl⟩,
   c3_amended sampleEnvNoKey initCache (some "hello") (by decide) (by decide)
     (Or.inl rfl)⟩

/-! ### C10 -/

/-- C10: on the generation-streaming path (non-empty, non-triggering
message, credential present) the emitted events are exactly the framing
of the non-empty upstream fragments in upstream order, followed by the
done marker when the upstream closes cleanly (falsy fragments — absent
or empty `chunk.text` — are skipped at line 212 and never emitted); and
every emitted framed event carries a non-empty fragment that occurs in
the upstream sequence. -/
theorem c10_stream_fragments (env : Env) (c : WeatherCache)
    (payload : Option String)
    (hm : pyStrip (payload.getD "") ≠ "")
    (ht : triggerGalway (pyLower (pyStrip (payload.getD ""))) = false)
    (hcl : get_gemini_client env.apiKey = .ok ()) :
    (chat_stream env c payload).1 =
      .events
        ((((env.genChunks.filterMap id).filter (fun s => !s.isEmpty)).map
            (fun f => "data: " ++ f ++ "\n\n")) ++
          (match env.genStreamErr with | some _ => [] | none => [doneEvent]))
        200 env.genStreamErr ∧
    ∀ ev ∈ (((env.genChunks.filterMap id).filter (fun s => !s.isEmpty)).map
        (fun f => "data: " ++ f ++ "\n\n")),
      ∃ f, some f ∈ env.genChunks ∧ f ≠ "" ∧ ev = "data: " ++ f ++ "\n\n" := by
  have hmh := maybe_handle_no_trigger env (pyStrip (payload.getD "")) c ht
  constructor
  · cases hse : env.genStreamErr with
    | some m => simp [chat_stream, hm, hmh, hcl, hse]
    | none => simp [chat_stream, hm, hmh, hcl, hse]
  · intro ev hev
    rcases List.mem_map.mp hev with ⟨f, hf, rfl⟩
    rcases List.mem_filter.mp hf with ⟨hf1, hf2⟩
    refine ⟨f, ?_, ?_, rfl⟩
    · rcases List.mem_filterMap.mp hf1 with ⟨a, ha, hae⟩
      cases a with
      | none => cases hae
      | some x =>
        simp at hae
        rwa [hae] at ha
    · intro hfe
      rw [hfe] at hf2
      exact absurd hf2 (by decide)

/-- C10 witness: the statement at a concrete chunk sequence containing
an empty and an absent fragment. -/
theorem c10_stream_fragments_witness :
    (pyStrip ((some "hi" : Option String).getD "") ≠ "" ∧
     triggerGalway (pyLower (pyStrip ((some "hi" : Option String).getD ""))) = false ∧
     get_gemini_client streamEnv.apiKey = .ok ()) ∧
    (chat_stream streamEnv initCache (some "hi")).1 =
      .events ["data: Hel\n\n", "data: lo\n\n", doneEvent] 200 none :=
  ⟨⟨by decide, by decide, rfl⟩,
   ((c10_stream_fragments streamEnv initCache (some "hi") (by decide) (by decide)
     rfl).1).trans rfl⟩
